import Mathlib

/-!
# Verification of the Cube Hopper gameplay core

A shallow embedding of the gameplay simulation of the 3-D platformer
(`js/utils.js`, `js/player.js`, `js/game.js`) together with proofs of the
spec's testable properties.

Modelling conventions:
* JS numbers are modelled as rationals (`ℚ`); all gameplay arithmetic in the
  source is exact decimal arithmetic on small constants.
* `Utils.distance` computes `Math.sqrt` of a sum of squares and is only ever
  used in comparisons `distance < t` with a positive literal `t`; such a
  comparison is embedded as the equivalent `distSq < t * t` so that every
  definition stays executable over `ℚ`.  Likewise `Math.pow (a, 2)` is
  embedded as `a * a`.
* Rendering-only state (meshes, materials, shadows, particle effects, the
  DOM/UI sink `Utils.updateUI`, `setTimeout` colour flashes) is omitted: it
  is mutated by the gameplay code but never read back by it.
* The per-entity `userData` records become structure fields.
-/

namespace CubeHopper

/-- A 3-component vector (`THREE.Vector3` as used by the gameplay code). -/
structure Vec3 where
  x : ℚ
  y : ℚ
  z : ℚ
deriving DecidableEq, Repr

/-- `Utils.clamp(value, min, max) = Math.max(min, Math.min(max, value))`. -/
def clamp (value lo hi : ℚ) : ℚ :=
  max lo (min hi value)

/-- `Utils.lerp(start, end, factor)`. -/
def lerp (a b t : ℚ) : ℚ :=
  a + (b - a) * t

/-- Squared Euclidean distance.  `Utils.distance(pos1, pos2)` is
`Math.sqrt` of this quantity; the source only compares distances against
positive thresholds, which we embed squared. -/
def distSq (a b : Vec3) : ℚ :=
  (a.x - b.x) * (a.x - b.x) + (a.y - b.y) * (a.y - b.y) + (a.z - b.z) * (a.z - b.z)

/-- `Utils.isColliding(obj1, obj2, threshold)`:
`distance(obj1.position, obj2.position) < threshold`, embedded squared
(equivalent for the positive thresholds used: 1.5, 2, 3). -/
def isColliding (p1 p2 : Vec3) (threshold : ℚ) : Bool :=
  decide (distSq p1 p2 < threshold * threshold)

/-- `Utils.isOnPlatform(player, platform, threshold = 3)`:
`horizontalDistance < threshold && verticalDistance > 0.5 && verticalDistance < 3`,
where `horizontalDistance` is the (x, z)-plane distance (embedded squared) and
`verticalDistance = player.position.y - platform.position.y`.
Call sites use the default `threshold = 3`. -/
def isOnPlatform (player platform : Vec3) (threshold : ℚ) : Bool :=
  let hDistSq := (player.x - platform.x) * (player.x - platform.x)
      + (player.z - platform.z) * (player.z - platform.z)
  let verticalDistance := player.y - platform.y
  decide (hDistSq < threshold * threshold) &&
    decide (verticalDistance > 0.5) &&
    decide (verticalDistance < 3)

/-- Held-key state of the player (`Player.keys`). -/
structure Keys where
  left : Bool
  right : Bool
  forward : Bool
  backward : Bool
  space : Bool
  shift : Bool
deriving DecidableEq, Repr

/-- Gameplay state of `Player` (`js/player.js` constructor).  The mesh, face
indicator and camera reference are rendering-only and omitted. -/
structure Player where
  position : Vec3
  velocity : Vec3
  speed : ℚ
  jumpForce : ℚ
  gravity : ℚ
  isGrounded : Bool
  isJumping : Bool
  lives : Int
  isAlive : Bool
  keys : Keys
deriving DecidableEq, Repr

/-- The `Player` constructor's initial gameplay state. -/
def initialPlayer : Player where
  position := ⟨0, 5, 0⟩
  velocity := ⟨0, 0, 0⟩
  speed := 0.15
  jumpForce := 0.4
  gravity := -0.02
  isGrounded := false
  isJumping := false
  lives := 3
  isAlive := true
  keys := ⟨false, false, false, false, false, false⟩

/-- `Player.updateMovement()`: key-driven horizontal velocity with friction
0.8 and run modifier 1.5, the jump impulse
(`space && isGrounded && !isJumping` sets `velocity.y = jumpForce`,
`isGrounded = false`, `isJumping = true`), then clamping of the horizontal
components to `±1.2 * currentSpeed`. -/
def updateMovement (p : Player) : Player :=
  let currentSpeed := if p.keys.shift then p.speed * 1.5 else p.speed
  let vx := if p.keys.left then -currentSpeed
    else if p.keys.right then currentSpeed
    else p.velocity.x * 0.8
  let vz := if p.keys.forward then -currentSpeed
    else if p.keys.backward then currentSpeed
    else p.velocity.z * 0.8
  let jump := p.keys.space && p.isGrounded && !p.isJumping
  let vy := if jump then p.jumpForce else p.velocity.y
  let grounded := if jump then false else p.isGrounded
  let jumping := if jump then true else p.isJumping
  let maxSpeed := currentSpeed * 1.2
  { p with
    velocity := ⟨clamp vx (-maxSpeed) maxSpeed, vy, clamp vz (-maxSpeed) maxSpeed⟩
    isGrounded := grounded
    isJumping := jumping }

/-- `Player.updatePhysics()`: gravity accumulates into `velocity.y` while
airborne, position integrates velocity, and the basic floor collision
(`position.y <= 1`) clamps `y` to 1, zeroes vertical velocity and grounds
the player. -/
def updatePhysics (p : Player) : Player :=
  let vy := if !p.isGrounded then p.velocity.y + p.gravity else p.velocity.y
  let pos : Vec3 := ⟨p.position.x + p.velocity.x, p.position.y + vy, p.position.z + p.velocity.z⟩
  if pos.y ≤ 1 then
    { p with
      position := ⟨pos.x, 1, pos.z⟩
      velocity := ⟨p.velocity.x, 0, p.velocity.z⟩
      isGrounded := true
      isJumping := false }
  else
    { p with position := pos, velocity := ⟨p.velocity.x, vy, p.velocity.z⟩ }

/-- A platform as consumed by the collision code: only its position is read. -/
structure Platform where
  position : Vec3
deriving DecidableEq, Repr

/-- One `forEach` step of `Player.checkPlatformCollisions`: if the player is
on the platform and descending (`velocity.y <= 0`), snap to
`platform.position.y + 2`, zero vertical velocity, ground the player and
record `onPlatform = true`. -/
def platformStep (acc : Player × Bool) (plat : Platform) : Player × Bool :=
  let p := acc.1
  if isOnPlatform p.position plat.position 3 then
    if p.velocity.y ≤ 0 then
      ({ p with
          position := ⟨p.position.x, plat.position.y + 2, p.position.z⟩
          velocity := ⟨p.velocity.x, 0, p.velocity.z⟩
          isGrounded := true
          isJumping := false }, true)
    else acc
  else acc

/-- `Player.checkPlatformCollisions(platforms)`: iterate `platformStep` over
all platforms, then if no platform matched and `position.y > 1.1` the player
is marked airborne. -/
def checkPlatformCollisions (p : Player) (platforms : List Platform) : Player :=
  let r := platforms.foldl platformStep (p, false)
  if !r.2 && decide (r.1.position.y > 1.1) then { r.1 with isGrounded := false } else r.1

/-- A collectible's gameplay state: its position plus the `userData` record
set by `Level.createCollectibles` (`type`, `collected`, `originalPosition`)
and the `visible` flag toggled on collection.  A descriptor without a `type`
is modelled by the empty string (JS `undefined` is falsy, like `""`). -/
structure Collectible where
  position : Vec3
  ctype : String
  collected : Bool
  visible : Bool
  originalPosition : Vec3
deriving DecidableEq, Repr

/-- A hazard's gameplay state: position plus the `userData` record set by
`Level.createHazards` (`type`, `damage`). -/
structure Hazard where
  position : Vec3
  htype : String
  damage : Int
deriving DecidableEq, Repr

/-- `Game.gameState` (the asset-progress counters are load-time only and
omitted). -/
structure GameState where
  isPlaying : Bool
  isPaused : Bool
  isLoading : Bool
  currentLevel : Int
  score : Int
  coins : Int
  lives : Int
deriving DecidableEq, Repr

/-- The `Game` constructor's initial `gameState`. -/
def initialGameState : GameState where
  isPlaying := false
  isPaused := false
  isLoading := true
  currentLevel := 1
  score := 0
  coins := 0
  lives := 3

/-- `Game.addScore(points)`. -/
def addScore (gs : GameState) (points : Int) : GameState :=
  { gs with score := gs.score + points }

/-- `Game.addCoin()`. -/
def addCoin (gs : GameState) : GameState :=
  { gs with coins := gs.coins + 1 }

/-- The slice of global state that `Player.update` can reach: the player
itself and the global `game.gameState` that `collectItem` mutates through
`game.addScore` / `game.addCoin`. -/
structure World where
  player : Player
  gameState : GameState
deriving DecidableEq, Repr

/-- `Player.addLife()`. -/
def addLife (p : Player) : Player :=
  { p with lives := p.lives + 1 }

/-- JS `collectible.userData.type || 'coin'`: an absent/empty type tag falls
back to `'coin'`. -/
def jsTypeOrCoin (s : String) : String :=
  if s = "" then "coin" else s

/-- `Player.collectItem(collectible)`: mark the collectible collected and
invisible, then dispatch the score/coin/life effect by type.  The particle
effect is rendering-only and omitted. -/
def collectItem (w : World) (c : Collectible) : World × Collectible :=
  let c2 := { c with collected := true, visible := false }
  let t := jsTypeOrCoin c.ctype
  let w2 :=
    if t = "coin-gold" then { w with gameState := addCoin (addScore w.gameState 100) }
    else if t = "coin-silver" then { w with gameState := addCoin (addScore w.gameState 50) }
    else if t = "coin-bronze" then { w with gameState := addCoin (addScore w.gameState 25) }
    else if t = "heart" then { w with player := addLife w.player, gameState := addScore w.gameState 200 }
    else if t = "jewel" then { w with gameState := addScore w.gameState 500 }
    else if t = "key" then { w with gameState := addScore w.gameState 300 }
    else { w with gameState := addCoin (addScore w.gameState 50) }
  (w2, c2)

/-- One `forEach` step of `Player.checkCollectibleCollisions`. -/
def collectStep (acc : World × List Collectible) (c : Collectible) : World × List Collectible :=
  if !c.collected && isColliding acc.1.player.position c.position 1.5 then
    let r := collectItem acc.1 c
    (r.1, acc.2 ++ [r.2])
  else
    (acc.1, acc.2 ++ [c])

/-- `Player.checkCollectibleCollisions(collectibles)`: collect every
not-yet-collected collectible within radius 1.5 of the player.  Returns the
updated world together with the collectible list after the pass. -/
def checkCollectibleCollisions (w : World) (cs : List Collectible) : World × List Collectible :=
  cs.foldl collectStep (w, [])

/-- `Player.die()`: sets `isAlive = false`.  The mesh recolouring is
rendering-only, and the delayed `game.playerDied()` notification is modelled
by the orchestrator-side `playerDied` below. -/
def die (p : Player) : Player :=
  { p with isAlive := false }

/-- `Player.takeDamage()`: no-op on a dead player; otherwise decrement
`lives`, apply the knockback (`velocity.y = 0.2`, horizontal components
inverted and doubled), and die when `lives <= 0`.  The UI update and the
timed colour flash are rendering-only and omitted. -/
def takeDamage (p : Player) : Player :=
  if !p.isAlive then p
  else
    let p2 := { p with
      lives := p.lives - 1
      velocity := ⟨p.velocity.x * (-2), 0.2, p.velocity.z * (-2)⟩ }
    if p2.lives ≤ 0 then die p2 else p2

/-- `Player.checkHazardCollisions(hazards)`: every hazard within radius 1.5
inflicts `takeDamage()`.  The hazard's `userData.damage` field is not read. -/
def checkHazardCollisions (p : Player) (hazards : List Hazard) : Player :=
  hazards.foldl (fun q h => if isColliding q.position h.position 1.5 then takeDamage q else q) p

/-- `Player.respawn()`: reset to the fixed spawn position `(0, 5, 0)` with
zero velocity, airborne and not jumping. -/
def respawn (p : Player) : Player :=
  { p with
    position := ⟨0, 5, 0⟩
    velocity := ⟨0, 0, 0⟩
    isGrounded := false
    isJumping := false }

/-- `Player.checkBoundaries()`: falling below `y = -20` triggers
`takeDamage()` followed by `respawn()`; then the horizontal position is
clamped to the world radius 100. -/
def checkBoundaries (p : Player) : Player :=
  let p1 := if p.position.y < -20 then respawn (takeDamage p) else p
  { p1 with
    position := ⟨clamp p1.position.x (-100) 100, p1.position.y, clamp p1.position.z (-100) 100⟩ }

/-- `Player.update(platforms, collectibles, hazards)`: early-return when not
alive, else movement, physics, platform resolution, collectible resolution,
hazard resolution and the boundary check, in source order.  `updateMesh()`
only mutates the rendered mesh and is omitted.  Returns the updated world
and the collectible list after the tick. -/
def update (w : World) (platforms : List Platform) (cs : List Collectible)
    (hazards : List Hazard) : World × List Collectible :=
  if !w.player.isAlive then (w, cs)
  else
    let p1 := checkPlatformCollisions (updatePhysics (updateMovement w.player)) platforms
    let r := checkCollectibleCollisions { w with player := p1 } cs
    let p2 := checkBoundaries (checkHazardCollisions r.1.player hazards)
    ({ r.1 with player := p2 }, r.2)

/-- `Player.reset(spawnPosition)`: re-arm the player for a new level at the
given spawn position. -/
def resetPlayer (p : Player) (spawnPosition : Vec3) : Player :=
  { p with
    position := spawnPosition
    velocity := ⟨0, 0, 0⟩
    isGrounded := false
    isJumping := false
    isAlive := true }

/-- An interactive object's gameplay state (`Level.createInteractive`
`userData`: `type`, `action`). -/
structure Interactive where
  position : Vec3
  itype : String
  action : String
deriving DecidableEq, Repr

/-- An environment decor object (no gameplay `userData` beyond its type). -/
structure EnvObject where
  position : Vec3
  etype : String
deriving DecidableEq, Repr

/-- A level goal descriptor (`levelData.goal`): a `type` tag and an optional
`count` parameter. -/
structure Goal where
  gtype : String
  count : Option Int
deriving DecidableEq, Repr

/-- One entry of a level descriptor's entity array: a `type` tag, optional
`position`, optional hazard `damage` and optional interactive `action`.
`rotation` and `scale` are also read from the descriptor but feed only the
rendered transform (`applyTransformations`), never gameplay, and are
omitted. -/
structure ObjectData where
  otype : String
  position : Option Vec3
  damage : Option Int
  action : Option String
deriving DecidableEq, Repr

/-- A parsed level descriptor (`levels/levelN.json`).  Absent entity arrays
are modelled by `[]` (the `create*` loops skip absent arrays, which builds
the same empty collection). -/
structure LevelDescriptor where
  platforms : List ObjectData
  collectibles : List ObjectData
  hazards : List ObjectData
  environment : List ObjectData
  interactive : List ObjectData
  spawn : Option Vec3
  goal : Option Goal
deriving DecidableEq, Repr

/-- Gameplay state of `Level` (`js/game.js`).  The scene handle, loader and
static asset-path table are rendering/IO-only and omitted. -/
structure LevelState where
  platforms : List Platform
  collectibles : List Collectible
  hazards : List Hazard
  environment : List EnvObject
  interactive : List Interactive
  currentLevel : Int
  levelData : Option LevelDescriptor
  totalCoins : Int
deriving DecidableEq, Repr

/-- The `Level` constructor's initial state. -/
def initialLevelState : LevelState where
  platforms := []
  collectibles := []
  hazards := []
  environment := []
  interactive := []
  currentLevel := 1
  levelData := none
  totalCoins := 0

/-- Position of a mesh produced by `Level.createObject` after
`applyTransformations`: the descriptor's position (each missing component
defaulting to 0), or the clone's origin when no position is given.  Whether
the real asset or the fallback geometry was used changes only the rendered
shape, never the gameplay position, so the asset/fallback split is not
modelled. -/
def objectPosition (d : ObjectData) : Vec3 :=
  d.position.getD ⟨0, 0, 0⟩

/-- `Level.createPlatforms` entry: a platform mesh at the descriptor
position. -/
def createPlatform (d : ObjectData) : Platform :=
  ⟨objectPosition d⟩

/-- `Level.createCollectibles` entry: mesh plus
`userData = { type, collected: false, originalPosition }`. -/
def createCollectible (d : ObjectData) : Collectible where
  position := objectPosition d
  ctype := d.otype
  collected := false
  visible := true
  originalPosition := objectPosition d

/-- JS `hazardData.damage || 1` (`0` is falsy and also falls back to 1). -/
def jsDamageOrOne (d : Option Int) : Int :=
  match d with
  | some v => if v = 0 then 1 else v
  | none => 1

/-- `Level.createHazards` entry: mesh plus
`userData = { type, damage: hazardData.damage || 1 }`. -/
def createHazard (d : ObjectData) : Hazard where
  position := objectPosition d
  htype := d.otype
  damage := jsDamageOrOne d.damage

/-- `Level.createEnvironment` entry. -/
def createEnvObject (d : ObjectData) : EnvObject where
  position := objectPosition d
  etype := d.otype

/-- `Level.createInteractive` entry: mesh plus
`userData = { type, action: interactiveData.action || 'none' }` (an absent
action is modelled by `none`). -/
def createInteractiveObject (d : ObjectData) : Interactive where
  position := objectPosition d
  itype := d.otype
  action := d.action.getD "none"

/-- The coin test used by `countTotalCoins` and `checkLevelComplete`:
`item.userData.type && item.userData.type.includes('coin')` (a falsy type
tag fails the guard; `includes` is substring containment). -/
def isCoinType (t : String) : Bool :=
  !decide (t = "") && decide (List.IsInfix "coin".toList t.toList)

/-- The value cached by `Level.countTotalCoins()`: the number of coin-type
collectibles. -/
def countTotalCoinsVal (cs : List Collectible) : Int :=
  ((cs.filter fun c => isCoinType c.ctype).length : Int)

/-- `Level.countTotalCoins()`: cache the coin count in `totalCoins` (the UI
update is omitted). -/
def countTotalCoins (l : LevelState) : LevelState :=
  { l with totalCoins := countTotalCoinsVal l.collectibles }

/-- `Level.clearLevel()`: remove every entity of the previous level (the
scene removal is rendering-only) and reset `totalCoins`.  `currentLevel` and
`levelData` are not touched. -/
def clearLevel (l : LevelState) : LevelState :=
  { l with
    platforms := []
    collectibles := []
    hazards := []
    environment := []
    interactive := []
    totalCoins := 0 }

/-- `Level.loadLevel(levelNumber)`.  The `fetched` argument models the
outcome of `Utils.loadJSON`: `none` when the descriptor fails to load or
parse (the `catch` branch returns `false`), `some d` on success.  Note the
source clears the previous level BEFORE attempting the fetch, so the
clearing happens on the failure path too.  Asset failures inside
`createObject` are caught internally and produce fallback geometry, so
entity construction itself never fails. -/
def loadLevel (l : LevelState) (levelNumber : Int) (fetched : Option LevelDescriptor) :
    LevelState × Bool :=
  let l1 := clearLevel l
  match fetched with
  | none => (l1, false)
  | some d =>
    let l2 := { l1 with
      levelData := some d
      currentLevel := levelNumber
      platforms := d.platforms.map createPlatform
      collectibles := d.collectibles.map createCollectible
      hazards := d.hazards.map createHazard
      environment := d.environment.map createEnvObject
      interactive := d.interactive.map createInteractiveObject }
    (countTotalCoins l2, true)

/-- JS `v || dflt` on a number: 0 is falsy. -/
def jsNumOr (v dflt : ℚ) : ℚ :=
  if v = 0 then dflt else v

/-- `Level.getPlayerSpawnPosition()`: the descriptor's spawn point with JS
falsy-defaults (`x || 0`, `y || 5`, `z || 0`), or `(0, 5, 0)` when absent. -/
def getPlayerSpawnPosition (l : LevelState) : Vec3 :=
  match l.levelData with
  | some d =>
    match d.spawn with
    | some s => ⟨jsNumOr s.x 0, jsNumOr s.y 5, jsNumOr s.z 0⟩
    | none => ⟨0, 5, 0⟩
  | none => ⟨0, 5, 0⟩

/-- `Level.getLevelGoal()`: the descriptor's goal, defaulting to
`{ type: 'collect_all_coins' }` when the descriptor or its goal is absent. -/
def getLevelGoal (l : LevelState) : Goal :=
  match l.levelData with
  | some d =>
    match d.goal with
    | some g => g
    | none => ⟨"collect_all_coins", none⟩
  | none => ⟨"collect_all_coins", none⟩

/-- Collected coin-type collectibles, as counted by the
`collect_all_coins` branch of `checkLevelComplete`. -/
def collectedCoinCount (cs : List Collectible) : Int :=
  ((cs.filter fun c => isCoinType c.ctype && c.collected).length : Int)

/-- Collected hearts, as counted by the `collect_hearts` branch. -/
def collectedHeartCount (cs : List Collectible) : Int :=
  ((cs.filter fun c => decide (c.ctype = "heart") && c.collected).length : Int)

/-- JS `goal.count || 1` (0 is falsy). -/
def jsCountOrOne (c : Option Int) : Int :=
  match c with
  | some v => if v = 0 then 1 else v
  | none => 1

/-- `Level.checkLevelComplete()`.  `gamePlayerPos` models the global
`game.player` position read by the `reach_flag` branch (`none` when the
global player is not yet constructed). -/
def checkLevelComplete (l : LevelState) (gamePlayerPos : Option Vec3) : Bool :=
  let goal := getLevelGoal l
  if goal.gtype = "collect_all_coins" then
    decide (collectedCoinCount l.collectibles ≥ l.totalCoins)
  else if goal.gtype = "reach_flag" then
    match l.interactive.find? fun o => o.itype = "flag" with
    | some flag =>
      match gamePlayerPos with
      | some pp => decide (distSq pp flag.position < 3 * 3)
      | none => false
    | none => false
  else if goal.gtype = "collect_hearts" then
    decide (collectedHeartCount l.collectibles ≥ jsCountOrOne goal.count)
  else false

/-- `Level.resetCollectibles()`: restore every collectible to uncollected,
visible, at its original position. -/
def resetCollectibles (l : LevelState) : LevelState :=
  { l with collectibles := l.collectibles.map fun c =>
      { c with collected := false, visible := true, position := c.originalPosition } }

/-- The state owned by the `Game` orchestrator that the claims touch:
`gameState`, the player and the level. -/
structure GameWorld where
  player : Player
  gameState : GameState
  level : LevelState
deriving DecidableEq, Repr

/-- `Game.loadLevel(levelNumber)`.  On `Level.loadLevel` success: set
`currentLevel`, reset the player to the level spawn, zero the coin counter,
return `true`.  On failure: the thrown error is caught, `showError` displays
the message (returned as the third component) and `false` is returned; the
orchestrator's own `gameState` and the player are untouched, but
`this.level` has already been mutated by `Level.loadLevel`. -/
def gameLoadLevel (g : GameWorld) (levelNumber : Int) (fetched : Option LevelDescriptor) :
    GameWorld × Bool × Option String :=
  let r := loadLevel g.level levelNumber fetched
  if r.2 then
    let gs := { g.gameState with currentLevel := levelNumber, coins := 0 }
    let p := resetPlayer g.player (getPlayerSpawnPosition r.1)
    ({ player := p, gameState := gs, level := r.1 }, true, none)
  else
    ({ g with level := r.1 }, false, some ("Failed to load level " ++ toString levelNumber))

/-- The decision taken by `Game.playerDied()`. -/
inductive DeathDecision where
  | gameOver
  | respawnInLevel
deriving DecidableEq, Repr

/-- `Game.playerDied()`: game over when `gameState.lives <= 0`, otherwise
respawn within the level via `restartLevel()`.  Note the branch consults
`gameState.lives`, not `player.lives`. -/
def playerDied (gs : GameState) : DeathDecision :=
  if gs.lives ≤ 0 then DeathDecision.gameOver else DeathDecision.respawnInLevel

/-- `Game.restartLevel()`: reset the player to the level spawn, overwrite
`player.lives` with `gameState.lives`, reset the collectibles and zero the
coin counter. -/
def restartLevel (g : GameWorld) : GameWorld :=
  let p1 := resetPlayer g.player (getPlayerSpawnPosition g.level)
  let p2 := { p1 with lives := g.gameState.lives }
  { g with
    player := p2
    level := resetCollectibles g.level
    gameState := { g.gameState with coins := 0 } }

/-- `Game.restartGame()`: zero score/coins, restore `lives = 3` on both
counters, revive the player and go back to level 1 (the reload itself runs
through `Game.loadLevel`). -/
def restartGame (g : GameWorld) : GameWorld :=
  { g with
    gameState := { g.gameState with score := 0, coins := 0, lives := 3, currentLevel := 1 }
    player := { g.player with lives := 3, isAlive := true } }

/-! ## Concrete sample states

Closed instances used by the witness/counterexample theorems below. -/

/-- A dead player (as left behind by `die`). -/
def deadPlayer : Player := { initialPlayer with isAlive := false }

/-- A world whose player is dead. -/
def deadWorld : World := { player := deadPlayer, gameState := initialGameState }

/-- A player down to a single life. -/
def oneLifePlayer : Player := { initialPlayer with lives := 1 }

/-- A hazard placed exactly at the default player position. -/
def spikeHazard : Hazard := ⟨⟨0, 5, 0⟩, "spike", 1⟩

/-- A player that has fallen below the world-depth threshold. -/
def fallenPlayer : Player :=
  { initialPlayer with position := ⟨50, -30, -7⟩, velocity := ⟨1, -2, 3⟩ }

/-- A level whose descriptor declares the spawn point `(10, 5, 0)`. -/
def spawnLevel : LevelState :=
  { initialLevelState with levelData := some ⟨[], [], [], [], [], some ⟨10, 5, 0⟩, none⟩ }

/-- The world right after construction. -/
def baseWorld : World := { player := initialPlayer, gameState := initialGameState }

/-- A gold coin at the default player position. -/
def goldCoin : Collectible := ⟨⟨0, 5, 0⟩, "coin-gold", false, true, ⟨0, 5, 0⟩⟩

/-- A heart at the default player position. -/
def heartItem : Collectible := ⟨⟨0, 5, 0⟩, "heart", false, true, ⟨0, 5, 0⟩⟩

/-- An already-collected gold coin at horizontal offset `i`. -/
def collectedCoinAt (i : ℚ) : Collectible := ⟨⟨i, 0, 0⟩, "coin-gold", true, false, ⟨i, 0, 0⟩⟩

/-- An uncollected gold coin at horizontal offset `i`. -/
def uncollectedCoinAt (i : ℚ) : Collectible := ⟨⟨i, 0, 0⟩, "coin-gold", false, true, ⟨i, 0, 0⟩⟩

/-- Five coins, three of them collected. -/
def fiveCoinsPart : List Collectible :=
  [collectedCoinAt 1, collectedCoinAt 2, collectedCoinAt 3,
    uncollectedCoinAt 4, uncollectedCoinAt 5]

/-- Five coins, all collected. -/
def fiveCoinsAll : List Collectible :=
  [collectedCoinAt 1, collectedCoinAt 2, collectedCoinAt 3,
    collectedCoinAt 4, collectedCoinAt 5]

/-- A level holding the given collectibles with a freshly cached coin count
and no descriptor (so the goal defaults to `collect_all_coins`). -/
def levelWith (cs : List Collectible) : LevelState :=
  { initialLevelState with collectibles := cs, totalCoins := countTotalCoinsVal cs }

/-- A descriptor with no entities, no spawn and no goal. -/
def emptyDescriptor : LevelDescriptor := ⟨[], [], [], [], [], none, none⟩

/-- A loaded level whose descriptor omits the goal and that has no coin-type
collectible (one uncollected heart only). -/
def coinlessLevel : LevelState :=
  { initialLevelState with levelData := some emptyDescriptor, collectibles := [heartItem] }

/-- A level owning one platform entity. -/
def platformLevel : LevelState := { initialLevelState with platforms := [⟨⟨1, 2, 3⟩⟩] }

/-- A game world whose current level owns one platform. -/
def platformGameWorld : GameWorld := ⟨initialPlayer, initialGameState, platformLevel⟩

/-- The game world after the player has lost all three lives (three hazard
contacts), with the orchestrator's `gameState` as the play loop left it. -/
def deadEndWorld : GameWorld :=
  ⟨takeDamage (takeDamage (takeDamage initialPlayer)), initialGameState, initialLevelState⟩

/-! ## Helper lemmas -/

theorem takeDamage_of_dead (p : Player) (h : p.isAlive = false) : takeDamage p = p := by
  simp [takeDamage, h]

theorem checkHazardCollisions_of_dead (p : Player) (hs : List Hazard) (h : p.isAlive = false) :
    checkHazardCollisions p hs = p := by
  induction hs with
  | nil => rfl
  | cons hz rest ih =>
    simp only [checkHazardCollisions, List.foldl_cons] at ih ⊢
    rw [show (if isColliding p.position hz.position 1.5 then takeDamage p else p) = p by
      rw [takeDamage_of_dead p h]; simp]
    exact ih

theorem takeDamage_lives (p : Player) (h : p.isAlive = true) :
    (takeDamage p).lives = p.lives - 1 := by
  simp only [takeDamage, h, Bool.not_true, Bool.false_eq_true, if_false]
  split <;> simp [die]

theorem takeDamage_dead_of_one_life (p : Player) (halive : p.isAlive = true)
    (hlives : p.lives = 1) : (takeDamage p).isAlive = false := by
  simp [takeDamage, halive, hlives, die]

theorem platformFold_jump_clear_grounds (plats : List Platform) (acc : Player × Bool)
    (hacc : acc.1.isJumping = false → acc.1.isGrounded = true ∧ acc.2 = true) :
    (plats.foldl platformStep acc).1.isJumping = false →
      (plats.foldl platformStep acc).1.isGrounded = true ∧
        (plats.foldl platformStep acc).2 = true := by
  induction plats generalizing acc with
  | nil => exact hacc
  | cons plat rest ih =>
    intro hj
    refine ih (platformStep acc plat) ?_ hj
    intro hstep
    simp only [platformStep] at hstep ⊢
    by_cases h1 : isOnPlatform acc.1.position plat.position 3 = true
    · by_cases h2 : acc.1.velocity.y ≤ 0
      · simp [h1, h2]
      · simp only [h1, if_true, h2, if_false] at hstep ⊢
        exact hacc hstep
    · simp only [h1, if_false] at hstep ⊢
      exact hacc hstep

/-! ## C6 -/

/-- C6: `isOnPlatform` with the default threshold 3 holds iff the squared
horizontal (x, z) distance is below `3 * 3` (i.e. the horizontal distance is
strictly below 3) and the vertical offset `player.y - platform.y` lies
strictly between 0.5 and 3, and it is false at each exact boundary
(horizontal distance exactly 3, vertical offset exactly 0.5 or 3). -/
theorem claim6_isOnPlatform_iff (player platform : Vec3) :
    (isOnPlatform player platform 3 = true ↔
      ((player.x - platform.x) * (player.x - platform.x)
            + (player.z - platform.z) * (player.z - platform.z) < 3 * 3
        ∧ 0.5 < player.y - platform.y ∧ player.y - platform.y < 3))
    ∧ ((player.x - platform.x) * (player.x - platform.x)
            + (player.z - platform.z) * (player.z - platform.z) = 3 * 3 →
        isOnPlatform player platform 3 = false)
    ∧ (player.y - platform.y = 0.5 → isOnPlatform player platform 3 = false)
    ∧ (player.y - platform.y = 3 → isOnPlatform player platform 3 = false) := by
  have hiff : isOnPlatform player platform 3 = true ↔
      ((player.x - platform.x) * (player.x - platform.x)
            + (player.z - platform.z) * (player.z - platform.z) < 3 * 3
        ∧ 0.5 < player.y - platform.y ∧ player.y - platform.y < 3) := by
    simp only [isOnPlatform, Bool.and_eq_true, decide_eq_true_eq, gt_iff_lt]
    tauto
  refine ⟨hiff, ?_, ?_, ?_⟩
  · intro heq
    rw [Bool.eq_false_iff]
    intro htrue
    exact absurd (hiff.mp htrue).1 (by rw [heq]; exact lt_irrefl _)
  · intro heq
    rw [Bool.eq_false_iff]
    intro htrue
    exact absurd (hiff.mp htrue).2.1 (by rw [heq]; exact lt_irrefl _)
  · intro heq
    rw [Bool.eq_false_iff]
    intro htrue
    exact absurd (hiff.mp htrue).2.2 (by rw [heq]; exact lt_irrefl _)

/-- Witness for C6 at the three boundary inputs: horizontal distance exactly
3, vertical offset exactly 0.5, vertical offset exactly 3. -/
theorem claim6_isOnPlatform_iff_witness :
    isOnPlatform ⟨3, 1, 0⟩ ⟨0, 0, 0⟩ 3 = false
    ∧ isOnPlatform ⟨0, 0.5, 0⟩ ⟨0, 0, 0⟩ 3 = false
    ∧ isOnPlatform ⟨0, 3, 0⟩ ⟨0, 0, 0⟩ 3 = false :=
  ⟨(claim6_isOnPlatform_iff ⟨3, 1, 0⟩ ⟨0, 0, 0⟩).2.1 (by norm_num),
   (claim6_isOnPlatform_iff ⟨0, 0.5, 0⟩ ⟨0, 0, 0⟩).2.2.1 (by norm_num),
   (claim6_isOnPlatform_iff ⟨0, 3, 0⟩ ⟨0, 0, 0⟩).2.2.2 (by norm_num)⟩

/-! ## C5 -/

/-- C5: at a tick whose movement step sees the jump key held, the player
grounded and not already jumping, the vertical velocity becomes exactly
`jumpForce`, `isGrounded` becomes false and `isJumping` becomes true; while
`isJumping` is true the movement step accepts no second jump impulse (the
vertical velocity is left untouched and `isJumping` stays true); and the
only way the physics or platform steps clear `isJumping` is by landing, i.e.
whenever they clear it they simultaneously set `isGrounded`, so no second
jump is accepted until the player is grounded again. -/
theorem claim5_jump_impulse (p : Player) (platforms : List Platform) :
    (p.keys.space = true → p.isGrounded = true → p.isJumping = false →
      (updateMovement p).velocity.y = p.jumpForce
        ∧ (updateMovement p).isGrounded = false
        ∧ (updateMovement p).isJumping = true)
    ∧ (p.isJumping = true →
      (updateMovement p).velocity.y = p.velocity.y
        ∧ (updateMovement p).isJumping = true
        ∧ (updateMovement p).isGrounded = p.isGrounded)
    ∧ (p.isJumping = true → (updatePhysics p).isJumping = false →
        (updatePhysics p).isGrounded = true)
    ∧ (p.isJumping = true → (checkPlatformCollisions p platforms).isJumping = false →
        (checkPlatformCollisions p platforms).isGrounded = true) := by
  refine ⟨?_, ?_, ?_, ?_⟩
  · intro hspace hg hj
    simp [updateMovement, hspace, hg, hj]
  · intro hj
    simp [updateMovement, hj]
  · intro hj
    simp only [updatePhysics]
    split <;> split
    all_goals first
      | (intro _; rfl)
      | (intro hbad; simp [hj] at hbad)
  · intro hj
    have hfold := platformFold_jump_clear_grounds platforms (p, false)
      (by intro hfalse; rw [hj] at hfalse; exact absurd hfalse (by simp))
    simp only [checkPlatformCollisions]
    split
    · rename_i hcond
      intro hjf
      have := hfold hjf
      rw [this.2] at hcond
      simp at hcond
    · exact fun hjf => (hfold hjf).1

/-- Witness for C5: a grounded, non-jumping player holding the jump key gets
vertical velocity exactly `jumpForce = 0.4`, and a mid-jump player's
movement step leaves the vertical velocity untouched. -/
theorem claim5_jump_impulse_witness :
    (updateMovement { initialPlayer with
        isGrounded := true
        keys := ⟨false, false, false, false, true, false⟩ }).velocity.y
      = ({ initialPlayer with
        isGrounded := true
        keys := ⟨false, false, false, false, true, false⟩ } : Player).jumpForce
    ∧ (updateMovement { initialPlayer with isJumping := true }).velocity.y
      = ({ initialPlayer with isJumping := true } : Player).velocity.y :=
  ⟨((claim5_jump_impulse { initialPlayer with
      isGrounded := true
      keys := ⟨false, false, false, false, true, false⟩ } []).1 rfl rfl rfl).1,
   ((claim5_jump_impulse { initialPlayer with isJumping := true } []).2.1 rfl).1⟩

/-! ## C1 -/

/-- C1: when the player is not alive, `Player.update` is a complete no-op —
the world (position, velocity, lives, flags, counters) and the collectible
list are returned unchanged, so no collectible or hazard is processed; and a
hazard contact while `lives = 1` sets `isAlive` to false exactly once: the
whole hazard pass equals the single `takeDamage` application (the further
hazards of the pass hit a dead player, for which `takeDamage` is a no-op). -/
theorem claim1_dead_update_noop (w : World) (platforms : List Platform)
    (cs : List Collectible) (hazards : List Hazard)
    (p : Player) (hz : Hazard) (rest : List Hazard)
    (hdead : w.player.isAlive = false)
    (halive : p.isAlive = true) (hlives : p.lives = 1)
    (hcoll : isColliding p.position hz.position 1.5 = true) :
    update w platforms cs hazards = (w, cs)
    ∧ (checkHazardCollisions p (hz :: rest)).isAlive = false
    ∧ checkHazardCollisions p (hz :: rest) = takeDamage p := by
  have hdeadTD : (takeDamage p).isAlive = false := takeDamage_dead_of_one_life p halive hlives
  have hrest : checkHazardCollisions (takeDamage p) rest = takeDamage p :=
    checkHazardCollisions_of_dead _ _ hdeadTD
  have hcons : checkHazardCollisions p (hz :: rest) = takeDamage p := by
    simp only [checkHazardCollisions, List.foldl_cons, hcoll, if_true] at hrest ⊢
    exact hrest
  exact ⟨by simp [update, hdead], by rw [hcons]; exact hdeadTD, hcons⟩

/-- Witness for C1: a dead player's update is the identity, and one hazard
contact at a single life kills a concrete player. -/
theorem claim1_dead_update_noop_witness :
    update deadWorld [] [] [] = (deadWorld, [])
    ∧ (checkHazardCollisions oneLifePlayer [spikeHazard]).isAlive = false := by
  have h := claim1_dead_update_noop deadWorld [] [] [] oneLifePlayer spikeHazard []
    rfl rfl rfl
    (by norm_num [isColliding, distSq, oneLifePlayer, initialPlayer, spikeHazard])
  exact ⟨h.1, h.2.1⟩

/-! ## C2 -/

/-- C2 counterexample: the claim says a player falling below `y = -20` is
respawned to the LEVEL'S spawn point.  For a level whose descriptor sets
`spawn = (10, 5, 0)`, the boundary check respawns the player to the
hard-coded `(0, 5, 0)` of `Player.respawn`, which differs from the level's
spawn point. -/
theorem claim2_counterexample :
    fallenPlayer.isAlive = true
    ∧ fallenPlayer.position.y < -20
    ∧ getPlayerSpawnPosition spawnLevel = ⟨10, 5, 0⟩
    ∧ (checkBoundaries fallenPlayer).position = ⟨0, 5, 0⟩
    ∧ (checkBoundaries fallenPlayer).position ≠ getPlayerSpawnPosition spawnLevel := by
  have hspawn : getPlayerSpawnPosition spawnLevel = ⟨10, 5, 0⟩ := by
    simp [getPlayerSpawnPosition, spawnLevel, initialLevelState, jsNumOr]
  have hpos : (checkBoundaries fallenPlayer).position = ⟨0, 5, 0⟩ := by
    simp only [checkBoundaries]
    rw [if_pos (by norm_num [fallenPlayer, initialPlayer] :
      fallenPlayer.position.y < -20)]
    simp [respawn, clamp, takeDamage, fallenPlayer, initialPlayer, die]
  refine ⟨rfl, by norm_num [fallenPlayer, initialPlayer], hspawn, hpos, ?_⟩
  rw [hspawn, hpos]
  simp

/-- C2 (amended): for every alive player below `y = -20` at the boundary
check, exactly one damage application occurs (`lives` drops by exactly one)
and the player is respawned to the fixed default spawn position `(0, 5, 0)`
— which coincides with the level's spawn point only when the level defines
none — with velocity exactly zero, airborne and not jumping. -/
theorem claim2_respawn_default_spawn (p : Player) (halive : p.isAlive = true)
    (hy : p.position.y < -20) :
    (checkBoundaries p).lives = p.lives - 1
    ∧ (checkBoundaries p).position = ⟨0, 5, 0⟩
    ∧ (checkBoundaries p).velocity = ⟨0, 0, 0⟩
    ∧ (checkBoundaries p).isGrounded = false
    ∧ (checkBoundaries p).isJumping = false := by
  have hl := takeDamage_lives p halive
  unfold checkBoundaries
  rw [if_pos hy]
  refine ⟨?_, ?_, rfl, rfl, rfl⟩
  · simpa [respawn] using hl
  · simp [respawn, clamp]

/-- Witness for C2 (amended) at a concrete fallen player. -/
theorem claim2_respawn_default_spawn_witness :
    (checkBoundaries fallenPlayer).lives = fallenPlayer.lives - 1
    ∧ (checkBoundaries fallenPlayer).position = ⟨0, 5, 0⟩
    ∧ (checkBoundaries fallenPlayer).velocity = ⟨0, 0, 0⟩ := by
  have h := claim2_respawn_default_spawn fallenPlayer
    rfl (by norm_num [fallenPlayer, initialPlayer])
  exact ⟨h.1, h.2.1, h.2.2.1⟩

/-! ## C9 -/

/-- C9: `takeDamage` decrements `lives` by exactly 1 for every hazard
contact while alive; the hazard pass is invariant under arbitrary rewrites
of every hazard's `damage` metadata (the damage path never reads it); and
`createHazards` does store `hazardData.damage || 1` in that metadata. -/
theorem claim9_damage_metadata_unused (p : Player) (hs : List Hazard)
    (f : Hazard → Int) (d : ObjectData) :
    (p.isAlive = true → (takeDamage p).lives = p.lives - 1)
    ∧ checkHazardCollisions p (hs.map fun h => { h with damage := f h })
        = checkHazardCollisions p hs
    ∧ (createHazard d).damage = jsDamageOrOne d.damage := by
  refine ⟨takeDamage_lives p, ?_, rfl⟩
  simp [checkHazardCollisions, List.foldl_map]

/-- Witness for C9 at a concrete player. -/
theorem claim9_damage_metadata_unused_witness :
    (takeDamage initialPlayer).lives = initialPlayer.lives - 1 :=
  (claim9_damage_metadata_unused initialPlayer [] (fun _ => 99)
    ⟨"spike", none, none, none⟩).1 rfl

/-! ## C4 -/

/-- C4: collecting an uncollected `coin-gold` within radius 1.5 adds exactly
100 to the score and exactly 1 to the coin counter and leaves the player
untouched; collecting an uncollected `heart` adds exactly 1 life and exactly
200 score and no coin; in both cases the instance comes back marked
`collected` (and invisible); and collection is idempotent per instance: once
`collected` is set, a further pass over the same instance changes nothing. -/
theorem claim4_collect_effects (w : World) (c : Collectible) :
    (c.ctype = "coin-gold" → c.collected = false →
      isColliding w.player.position c.position 1.5 = true →
      (checkCollectibleCollisions w [c]).1.gameState.score = w.gameState.score + 100
        ∧ (checkCollectibleCollisions w [c]).1.gameState.coins = w.gameState.coins + 1
        ∧ (checkCollectibleCollisions w [c]).1.player = w.player
        ∧ (checkCollectibleCollisions w [c]).2 = [{ c with collected := true, visible := false }])
    ∧ (c.ctype = "heart" → c.collected = false →
      isColliding w.player.position c.position 1.5 = true →
      (checkCollectibleCollisions w [c]).1.player.lives = w.player.lives + 1
        ∧ (checkCollectibleCollisions w [c]).1.gameState.score = w.gameState.score + 200
        ∧ (checkCollectibleCollisions w [c]).1.gameState.coins = w.gameState.coins
        ∧ (checkCollectibleCollisions w [c]).2 = [{ c with collected := true, visible := false }])
    ∧ (c.collected = true → checkCollectibleCollisions w [c] = (w, [c])) := by
  refine ⟨?_, ?_, ?_⟩
  · intro hty hcol hc
    simp [checkCollectibleCollisions, collectStep, collectItem, jsTypeOrCoin,
      addScore, addCoin, hty, hcol, hc]
  · intro hty hcol hc
    simp [checkCollectibleCollisions, collectStep, collectItem, jsTypeOrCoin,
      addScore, addLife, hty, hcol, hc]
  · intro hcol
    simp [checkCollectibleCollisions, collectStep, hcol]

/-- Witness for C4: a gold coin and a heart at the player's position, and
the already-collected gold coin as the idempotence instance. -/
theorem claim4_collect_effects_witness :
    (checkCollectibleCollisions baseWorld [goldCoin]).1.gameState.score
      = baseWorld.gameState.score + 100
    ∧ (checkCollectibleCollisions baseWorld [goldCoin]).1.gameState.coins
      = baseWorld.gameState.coins + 1
    ∧ (checkCollectibleCollisions baseWorld [heartItem]).1.player.lives
      = baseWorld.player.lives + 1
    ∧ checkCollectibleCollisions baseWorld [{ goldCoin with collected := true }]
      = (baseWorld, [{ goldCoin with collected := true }]) := by
  have hcg := (claim4_collect_effects baseWorld goldCoin).1 rfl rfl
    (by norm_num [isColliding, distSq, baseWorld, initialPlayer, goldCoin])
  have hh := (claim4_collect_effects baseWorld heartItem).2.1 rfl rfl
    (by norm_num [isColliding, distSq, baseWorld, initialPlayer, heartItem])
  have hid := (claim4_collect_effects baseWorld { goldCoin with collected := true }).2.2 rfl
  exact ⟨hcg.1, hcg.2.1, hh.1, hid⟩

theorem collectItem_gameState_lives (w : World) (c : Collectible) :
    (collectItem w c).1.gameState.lives = w.gameState.lives := by
  simp only [collectItem]
  split_ifs <;> simp [addScore, addCoin, addLife]

theorem collectFold_gameState_lives (cs : List Collectible) (acc : World × List Collectible) :
    (cs.foldl collectStep acc).1.gameState.lives = acc.1.gameState.lives := by
  induction cs generalizing acc with
  | nil => rfl
  | cons c rest ih =>
    rw [List.foldl_cons, ih]
    simp only [collectStep]
    split
    · exact collectItem_gameState_lives _ _
    · rfl

theorem update_gameState_lives (w : World) (platforms : List Platform)
    (cs : List Collectible) (hazards : List Hazard) :
    (update w platforms cs hazards).1.gameState.lives = w.gameState.lives := by
  simp only [update, checkCollectibleCollisions]
  split
  · rfl
  · exact collectFold_gameState_lives cs _

/-! ## C3 -/

/-- C3 (code bug): `Game.playerDied` consults `gameState.lives`, but no step
of the play loop ever decrements that counter — `Player.takeDamage` touches
only `player.lives` — so the counter consulted never reflects the lives lost
during play.  Concretely: a player who loses all three lives is dead with
`player.lives = 0`, yet `gameState.lives` is still 3, `playerDied` takes the
respawn branch instead of the game-over branch, and the ensuing
`restartLevel` restores the player to 3 lives, making game over unreachable. -/
theorem claim3_stale_lives_respawn :
    (∀ (w : World) (platforms : List Platform) (cs : List Collectible)
        (hazards : List Hazard),
      (update w platforms cs hazards).1.gameState.lives = w.gameState.lives)
    ∧ deadEndWorld.player.lives = 0
    ∧ deadEndWorld.player.isAlive = false
    ∧ deadEndWorld.gameState.lives = 3
    ∧ playerDied deadEndWorld.gameState = DeathDecision.respawnInLevel
    ∧ (restartLevel deadEndWorld).player.lives = 3 := by
  refine ⟨update_gameState_lives, ?_, ?_, rfl, rfl, rfl⟩
  · simp [deadEndWorld, takeDamage, die, initialPlayer]
  · simp [deadEndWorld, takeDamage, die, initialPlayer]

theorem getLevelGoal_set_collectibles (l : LevelState) (cs : List Collectible) :
    getLevelGoal { l with collectibles := cs } = getLevelGoal l := rfl

theorem collectedCoinCount_append_one (cs : List Collectible) (c : Collectible)
    (h1 : isCoinType c.ctype = true) (h2 : c.collected = true) :
    collectedCoinCount (cs ++ [c]) = collectedCoinCount cs + 1 := by
  simp [collectedCoinCount, List.filter_append, h1, h2]

/-! ## C7 -/

/-- C7: under a `collect_all_coins` goal, `checkLevelComplete` is true
exactly when the number of collected coin-type collectibles reaches the
cached `totalCoins`; with a freshly cached count of exactly 5 coin-type
collectibles it is false while fewer than 5 are collected, true once 5 are
collected, and appending a further collected coin-type collectible (a 6th
collected coin) keeps it true. -/
theorem claim7_collect_all_coins (l : LevelState) (gp : Option Vec3) (extra : Collectible)
    (hgoal : (getLevelGoal l).gtype = "collect_all_coins")
    (htot : l.totalCoins = countTotalCoinsVal l.collectibles)
    (h5 : countTotalCoinsVal l.collectibles = 5) :
    (checkLevelComplete l gp = true ↔ collectedCoinCount l.collectibles ≥ l.totalCoins)
    ∧ (collectedCoinCount l.collectibles < 5 → checkLevelComplete l gp = false)
    ∧ (collectedCoinCount l.collectibles = 5 → checkLevelComplete l gp = true)
    ∧ (isCoinType extra.ctype = true → extra.collected = true →
        checkLevelComplete l gp = true →
        checkLevelComplete { l with collectibles := l.collectibles ++ [extra] } gp = true) := by
  have hiff : checkLevelComplete l gp = true ↔
      collectedCoinCount l.collectibles ≥ l.totalCoins := by
    simp [checkLevelComplete, hgoal]
  refine ⟨hiff, ?_, ?_, ?_⟩
  · intro hlt
    rw [Bool.eq_false_iff]
    intro htrue
    have hge := hiff.mp htrue
    rw [htot, h5] at hge
    omega
  · intro hall
    exact hiff.mpr (by rw [hall, htot, h5])
  · intro hcoin hcol htrue
    have hbase := hiff.mp htrue
    have hiff2 : checkLevelComplete { l with collectibles := l.collectibles ++ [extra] } gp
        = true ↔ collectedCoinCount (l.collectibles ++ [extra]) ≥ l.totalCoins := by
      simp [checkLevelComplete, getLevelGoal_set_collectibles, hgoal]
    refine hiff2.mpr ?_
    rw [collectedCoinCount_append_one _ _ hcoin hcol]
    omega

/-- Witness for C7: a level of five coins with three collected is not
complete, with all five collected it is complete, and appending a collected
6th coin keeps it complete. -/
theorem claim7_collect_all_coins_witness :
    checkLevelComplete (levelWith fiveCoinsPart) none = false
    ∧ checkLevelComplete (levelWith fiveCoinsAll) none = true
    ∧ checkLevelComplete { levelWith fiveCoinsAll with
        collectibles := (levelWith fiveCoinsAll).collectibles ++ [collectedCoinAt 6] } none
      = true := by
  refine ⟨(claim7_collect_all_coins (levelWith fiveCoinsPart) none (collectedCoinAt 6)
      rfl rfl (by decide)).2.1 (by decide),
    (claim7_collect_all_coins (levelWith fiveCoinsAll) none (collectedCoinAt 6)
      rfl rfl (by decide)).2.2.1 (by decide),
    (claim7_collect_all_coins (levelWith fiveCoinsAll) none (collectedCoinAt 6)
      rfl rfl (by decide)).2.2.2 (by decide) (by decide) ?_⟩
  exact (claim7_collect_all_coins (levelWith fiveCoinsAll) none (collectedCoinAt 6)
      rfl rfl (by decide)).2.2.1 (by decide)

/-! ## C10 -/

/-- C10: when the active goal is `collect_all_coins` — in particular when
the descriptor omits the goal, in which case `getLevelGoal` defaults to
exactly `{ type: 'collect_all_coins' }` — and the cached `totalCoins` is 0,
`checkLevelComplete` returns true immediately, regardless of the
collectibles' collected state; and a level with no coin-type collectible
does cache `totalCoins = 0`. -/
theorem claim10_vacuous_goal (l : LevelState) (d : LevelDescriptor) (gp : Option Vec3) :
    (l.levelData = some d → d.goal = none →
      getLevelGoal l = ⟨"collect_all_coins", none⟩)
    ∧ ((getLevelGoal l).gtype = "collect_all_coins" → l.totalCoins = 0 →
      checkLevelComplete l gp = true)
    ∧ ((∀ c ∈ l.collectibles, isCoinType c.ctype = false) →
      countTotalCoinsVal l.collectibles = 0) := by
  refine ⟨?_, ?_, ?_⟩
  · intro hld hg
    simp [getLevelGoal, hld, hg]
  · intro hgoal htot
    simp only [checkLevelComplete, hgoal, if_true, htot]
    simp [collectedCoinCount]
  · intro hnc
    have hfil : l.collectibles.filter (fun c => isCoinType c.ctype) = [] := by
      rw [List.filter_eq_nil_iff]
      intro c hc
      simp [hnc c hc]
    simp [countTotalCoinsVal, hfil]

/-- Witness for C10: a goal-less level containing a single uncollected heart
and no coin is complete immediately. -/
theorem claim10_vacuous_goal_witness :
    getLevelGoal coinlessLevel = ⟨"collect_all_coins", none⟩
    ∧ checkLevelComplete coinlessLevel none = true
    ∧ countTotalCoinsVal coinlessLevel.collectibles = 0 := by
  refine ⟨(claim10_vacuous_goal coinlessLevel emptyDescriptor none).1 rfl rfl,
    (claim10_vacuous_goal coinlessLevel emptyDescriptor none).2.1 rfl rfl,
    (claim10_vacuous_goal coinlessLevel emptyDescriptor none).2.2 ?_⟩
  intro c hc
  simp only [coinlessLevel, initialLevelState] at hc
  simp only [List.mem_singleton] at hc
  rw [hc]
  decide

/-! ## C8 -/

/-- C8 counterexample: the claim says a failing `loadLevel` changes no game
state "including the previously loaded level's entities".  But
`Level.loadLevel` clears the previous level BEFORE attempting to fetch the
descriptor, so after a failing load of a world owning one platform, that
platform is gone. -/
theorem claim8_counterexample :
    (gameLoadLevel platformGameWorld 2 none).2.1 = false
    ∧ platformGameWorld.level.platforms ≠ []
    ∧ (gameLoadLevel platformGameWorld 2 none).1.level.platforms = [] := by
  refine ⟨rfl, ?_, rfl⟩
  simp [platformGameWorld, platformLevel, initialLevelState]

/-- C8 (amended): when the descriptor fails to load or parse,
`Game.loadLevel` returns false, shows the load-failure error message, and
leaves the orchestrator's `gameState`, the player, and the level's
`currentLevel` and `levelData` unchanged — but the previous level's entities
have already been cleared (the clearing precedes the fetch).  On success the
level's entities are exactly the ones constructed from the new descriptor,
so no previous entity survives into the new level. -/
theorem claim8_load_failure (g : GameWorld) (n : Int) (desc : LevelDescriptor) :
    ((gameLoadLevel g n none).2.1 = false
      ∧ (gameLoadLevel g n none).2.2 = some ("Failed to load level " ++ toString n)
      ∧ (gameLoadLevel g n none).1.gameState = g.gameState
      ∧ (gameLoadLevel g n none).1.player = g.player
      ∧ (gameLoadLevel g n none).1.level = clearLevel g.level
      ∧ (gameLoadLevel g n none).1.level.currentLevel = g.level.currentLevel
      ∧ (gameLoadLevel g n none).1.level.levelData = g.level.levelData)
    ∧ ((gameLoadLevel g n (some desc)).2.1 = true
      ∧ (gameLoadLevel g n (some desc)).1.level.platforms
          = desc.platforms.map createPlatform
      ∧ (gameLoadLevel g n (some desc)).1.level.collectibles
          = desc.collectibles.map createCollectible
      ∧ (gameLoadLevel g n (some desc)).1.level.hazards
          = desc.hazards.map createHazard
      ∧ (gameLoadLevel g n (some desc)).1.level.environment
          = desc.environment.map createEnvObject
      ∧ (gameLoadLevel g n (some desc)).1.level.interactive
          = desc.interactive.map createInteractiveObject) :=
  ⟨⟨rfl, rfl, rfl, rfl, rfl, rfl, rfl⟩, rfl, rfl, rfl, rfl, rfl, rfl⟩

end CubeHopper
